import Mathlib

/-!
Shallow embedding of the `NodeReplicate` client (src/index.js) and proofs
about its create / poll / retry protocol.

Modelling conventions:
* JavaScript values that flow through the client untyped (prediction objects,
  parsed JSON bodies, inputs) are modelled by the inductive `JsVal`;
  property access `o.k` is `jget o k`, returning `JsVal.undef` when absent.
* The HTTP transport (`this.fetch`) is a deterministic stub
  `Transport : Nat → FetchResult`, indexed by the number of transport calls
  made so far, so a stub can fail the first calls and succeed later.
* Effects are explicit state passing over `St`, which records the requests
  handed to the transport (in order) and the delays performed (in order).
* `throw new Error(msg)` is `Except.error msg`; promise resolution is
  `Except.ok`.
* Machine numbers (HTTP status, timeout, maxRetries) are `Int`.
* The unbounded `while` loop in `run` takes explicit fuel; `none` in the
  result means the loop was still polling when the fuel ran out.
-/

namespace NodeReplicate

/-- A JavaScript value, as far as the client inspects one. -/
inductive JsVal where
  | undef
  | nul
  | bool (b : Bool)
  | num (n : Int)
  | str (s : String)
  | obj (fields : List (String × JsVal))

/-- First binding of a key in an object literal's field list. -/
def lookupField : List (String × JsVal) → String → JsVal
  | [], _ => JsVal.undef
  | (k, v) :: rest, key => if k = key then v else lookupField rest key

/-- Property access `o[key]`: `undef` on non-objects and missing keys. -/
def jget : JsVal → String → JsVal
  | JsVal.obj fs, key => lookupField fs key
  | _, _ => JsVal.undef

/-- JavaScript string conversion, as used inside template literals. -/
def toDisplay : JsVal → String
  | JsVal.undef => "undefined"
  | JsVal.nul => "null"
  | JsVal.bool true => "true"
  | JsVal.bool false => "false"
  | JsVal.num n => toString n
  | JsVal.str s => s
  | JsVal.obj _ => "[object Object]"

def JsVal.isUndef : JsVal → Bool
  | JsVal.undef => true
  | _ => false

mutual

/-- Embedding of `JSON.stringify`, restricted to the values the client serialises. -/
def stringifyJs : JsVal → String
  | JsVal.undef => "undefined"
  | JsVal.nul => "null"
  | JsVal.bool true => "true"
  | JsVal.bool false => "false"
  | JsVal.num n => toString n
  | JsVal.str s => "\"" ++ s ++ "\""
  | JsVal.obj fs => "\x7b" ++ String.intercalate "," (fieldParts fs) ++ "\x7d"

/-- Serialised `"key":value` parts of an object; `undefined` fields are
skipped, as `JSON.stringify` does. -/
def fieldParts : List (String × JsVal) → List String
  | [] => []
  | (k, v) :: rest =>
    if v.isUndef then fieldParts rest
    else ("\"" ++ k ++ "\":" ++ stringifyJs v) :: fieldParts rest

end

/-- Embedding of `String.prototype.split` with a one-character separator, on the
character list of the string. -/
def splitChar (sep : Char) : List Char → List (List Char)
  | [] => [[]]
  | c :: cs =>
    let rest := splitChar sep cs
    if c = sep then [] :: rest
    else
      match rest with
      | [] => [[c]]
      | r :: rs => (c :: r) :: rs

/-- Embedding of `model.split(':')` from `create`. -/
def splitModel (model : String) : List String :=
  (splitChar ':' model.data).map String.mk

/-- Element `i` of an array-destructuring pattern, rendered as a template
literal renders it: a missing element is `undefined` and prints as
`"undefined"`. -/
def destructured (parts : List String) (i : Nat) : String :=
  match parts.get? i with
  | some s => s
  | none => "undefined"

/-- The constructor's `options` argument; `none` is an absent property. -/
structure Options where
  baseUrl : Option String
  timeout : Option Int
  maxRetries : Option Int
  apiKey : Option String

/-- Options of `new NodeReplicate()` with no argument: every property absent. -/
def noOptions : Options := ⟨none, none, none, none⟩

/-- Coalescing `x || d` for a possibly-absent string option (`""` is falsy). -/
def orDefaultStr : Option String → String → String
  | none, d => d
  | some s, d => if s = "" then d else s

/-- Coalescing `x || d` for a possibly-absent number option (`0` is falsy). -/
def orDefaultInt : Option Int → Int → Int
  | none, d => d
  | some v, d => if v = 0 then d else v

/-- The fields the constructor stores on `this` (the `fetch` field is the
transport, which the embedding passes separately to each operation). -/
structure ClientConfig where
  baseUrl : String
  timeout : Int
  maxRetries : Int
  apiKey : Option String

/-- The constructor of `NodeReplicate`. -/
def mkClient (options : Options) : ClientConfig :=
  { baseUrl := orDefaultStr options.baseUrl "https://replicate.com/api/models"
    timeout := orDefaultInt options.timeout 250
    maxRetries := orDefaultInt options.maxRetries 3
    apiKey :=
      match options.apiKey with
      | none => none
      | some k => if k = "" then none else some k }

/-- A client with all-default configuration. -/
def cfgDefault : ClientConfig := mkClient noOptions

/-- An HTTP response as the client consumes it: `ok`, `status`,
`statusText`, `text()` and `json()`. -/
structure Response where
  ok : Bool
  status : Int
  statusText : String
  bodyText : String
  bodyJson : JsVal

/-- One transport call either resolves with a response or rejects with an
error message. -/
inductive FetchResult where
  | resp (r : Response)
  | err (e : String)

/-- A call that does not produce a 2xx (`ok`) response. -/
def FetchResult.isFailure : FetchResult → Bool
  | FetchResult.resp r => !r.ok
  | FetchResult.err _ => true

/-- The transport stub: the result of the n-th transport call overall. -/
def Transport : Type := Nat → FetchResult

/-- The request object handed to the transport: the `url` argument plus the
fields of the `options` argument that `create`/`cancelPrediction` set
(`none` / `[]` for the bare `{}` of the GET calls). -/
structure Request where
  url : String
  hostname : Option String
  path : Option String
  method : Option String
  headers : List (String × String)
  body : Option String

/-- Request of `fetch(url)` with the default empty options object. -/
def emptyRequest (url : String) : Request := ⟨url, none, none, none, [], none⟩

/-- Observable effect trace: requests given to the transport and delays
performed, each in order. -/
structure St where
  callLog : List Request
  delays : List Int

def St.empty : St := ⟨[], []⟩

/-- Embedding of `delay(ms)`: the delay is recorded on the trace. -/
def delay (ms : Int) (st : St) : St := { st with delays := st.delays ++ [ms] }

/-- The error text of the final-attempt throw in `fetchWithRetry`. -/
def failText (r : Response) : String :=
  "Final attempt failed with status " ++ toString r.status ++ ": " ++ r.bodyText

/-- The `for` loop of `fetchWithRetry`: `i` is the loop counter, `fuel` the
number of iterations left (`maxRetries - i`, clamped at zero). On each
iteration the transport is called once; an `ok` response returns, a failure
on the last iteration (`i === maxRetries - 1`) throws (the final-attempt
throw inside `try` is re-thrown by `catch`), and otherwise the loop delays
`timeout` ms and retries. Falling off the loop throws the max-retries
error. -/
def fetchLoop (cfg : ClientConfig) (tr : Transport) (req : Request) :
    Nat → Nat → St → Except String Response × St
  | _, 0, st => (Except.error "Max retries reached for API request.", st)
  | i, fuel + 1, st =>
    let st1 : St := { st with callLog := st.callLog ++ [req] }
    match tr st.callLog.length with
    | FetchResult.resp r =>
      if r.ok then (Except.ok r, st1)
      else if (i : Int) = cfg.maxRetries - 1 then (Except.error (failText r), st1)
      else fetchLoop cfg tr req (i + 1) fuel (delay cfg.timeout st1)
    | FetchResult.err e =>
      if (i : Int) = cfg.maxRetries - 1 then (Except.error e, st1)
      else fetchLoop cfg tr req (i + 1) fuel (delay cfg.timeout st1)

/-- Embedding of `fetchWithRetry(url, options)`. -/
def fetchWithRetry (cfg : ClientConfig) (tr : Transport) (req : Request) (st : St) :
    Except String Response × St :=
  fetchLoop cfg tr req 0 cfg.maxRetries.toNat st

/-- The URL template of `get`. -/
def getUrl (cfg : ClientConfig) (p : JsVal) : String :=
  cfg.baseUrl ++ toDisplay (jget (jget (jget p "version") "model") "absolute_url") ++
    "/versions/" ++ toDisplay (jget p "version_id") ++
    "/predictions/" ++ toDisplay (jget p "uuid")

/-- Embedding of `get(prediction)`. -/
def get (cfg : ClientConfig) (tr : Transport) (p : JsVal) (st : St) :
    Except String JsVal × St :=
  match fetchWithRetry cfg tr (emptyRequest (getUrl cfg p)) st with
  | (Except.error e, st') => (Except.error e, st')
  | (Except.ok r, st') =>
    if !r.ok then (Except.error ("Failed to get prediction details: " ++ r.statusText), st')
    else (Except.ok (jget r.bodyJson "prediction"), st')

/-- The URL template of `create`. -/
def createUrl (cfg : ClientConfig) (path version : String) : String :=
  cfg.baseUrl ++ "/" ++ path ++ "/versions/" ++ version ++ "/predictions"

/-- The `options` object `create` builds for its POST. -/
def createRequest (cfg : ClientConfig) (path version : String) (inputs : JsVal) : Request :=
  { url := createUrl cfg path version
    hostname := some "replicate.com"
    path := some ("/api/models/" ++ path ++ "/versions/" ++ version ++ "/predictions")
    method := some "POST"
    headers :=
      ("Content-Type", "application/json") ::
        (match cfg.apiKey with
         | some k => [("Authorization", "Bearer " ++ k)]
         | none => [])
    body := some (stringifyJs (JsVal.obj [("inputs", inputs)])) }

/-- Embedding of `create(model, inputs)`. -/
def create (cfg : ClientConfig) (tr : Transport) (model : String) (inputs : JsVal)
    (st : St) : Except String JsVal × St :=
  let parts := splitModel model
  let path := destructured parts 0
  let version := destructured parts 1
  match fetchWithRetry cfg tr (createRequest cfg path version inputs) st with
  | (Except.error e, st') => (Except.error e, st')
  | (Except.ok r, st') =>
    if !r.ok then (Except.error ("Failed to create prediction: " ++ r.statusText), st')
    else (Except.ok r.bodyJson, st')

/-- Strict equality of `prediction.status` against a string literal, as in
`validStatuses.includes(prediction.status)` and the `'failed'` test. -/
def statusIs (p : JsVal) (s : String) : Bool :=
  match jget p "status" with
  | JsVal.str t => t = s
  | _ => false

/-- Embedding of `['canceled', 'succeeded', 'failed'].includes(prediction.status)`. -/
def isTerminal (p : JsVal) : Bool :=
  statusIs p "canceled" || statusIs p "succeeded" || statusIs p "failed"

/-- The `while` loop of `run` and what follows it: while the status is not
terminal, delay `timeout` ms and re-`get`; on exit throw on `failed`,
otherwise return `prediction.output`. `none` means the fuel ran out with
the loop still polling. -/
def runLoop (cfg : ClientConfig) (tr : Transport) :
    Nat → JsVal → St → Option (Except String JsVal) × St
  | fuel, p, st =>
    if isTerminal p then
      if statusIs p "failed" then
        (some (Except.error ("Prediction failed: " ++ toDisplay (jget p "error"))), st)
      else
        (some (Except.ok (jget p "output")), st)
    else
      match fuel with
      | 0 => (none, st)
      | fuel' + 1 =>
        let st1 := delay cfg.timeout st
        match get cfg tr p st1 with
        | (Except.error e, st') => (some (Except.error e), st')
        | (Except.ok p', st') => runLoop cfg tr fuel' p' st'

/-- Embedding of `run(model, inputs)`. -/
def run (cfg : ClientConfig) (tr : Transport) (model : String) (inputs : JsVal)
    (fuel : Nat) (st : St) : Option (Except String JsVal) × St :=
  match create cfg tr model inputs st with
  | (Except.error e, st') => (some (Except.error e), st')
  | (Except.ok p, st') => runLoop cfg tr fuel p st'

/-- Embedding of `checkStatus(prediction)`. -/
def checkStatus (cfg : ClientConfig) (tr : Transport) (p : JsVal) (st : St) :
    Except String JsVal × St :=
  match get cfg tr p st with
  | (Except.error e, st') => (Except.error e, st')
  | (Except.ok d, st') => (Except.ok (jget d "status"), st')

/-- Embedding of `listModels()`. -/
def listModels (cfg : ClientConfig) (tr : Transport) (st : St) :
    Except String JsVal × St :=
  match fetchWithRetry cfg tr (emptyRequest cfg.baseUrl) st with
  | (Except.error e, st') => (Except.error e, st')
  | (Except.ok r, st') =>
    if !r.ok then (Except.error ("Failed to list models: " ++ r.statusText), st')
    else (Except.ok r.bodyJson, st')

/-- Embedding of `getModelMetadata(modelPath)`. -/
def getModelMetadata (cfg : ClientConfig) (tr : Transport) (modelPath : String)
    (st : St) : Except String JsVal × St :=
  match fetchWithRetry cfg tr (emptyRequest (cfg.baseUrl ++ "/" ++ modelPath)) st with
  | (Except.error e, st') => (Except.error e, st')
  | (Except.ok r, st') =>
    if !r.ok then (Except.error ("Failed to get model metadata: " ++ r.statusText), st')
    else (Except.ok r.bodyJson, st')

/-- The `options` object `cancelPrediction` builds for its POST. -/
def cancelRequest (cfg : ClientConfig) (p : JsVal) : Request :=
  { url := getUrl cfg p ++ "/cancel"
    hostname := none
    path := none
    method := some "POST"
    headers :=
      match cfg.apiKey with
      | some k => [("Authorization", "Bearer " ++ k)]
      | none => []
    body := none }

/-- Embedding of `cancelPrediction(prediction)`. -/
def cancelPrediction (cfg : ClientConfig) (tr : Transport) (p : JsVal) (st : St) :
    Except String JsVal × St :=
  match fetchWithRetry cfg tr (cancelRequest cfg p) st with
  | (Except.error e, st') => (Except.error e, st')
  | (Except.ok r, st') =>
    if !r.ok then (Except.error ("Failed to cancel prediction: " ++ r.statusText), st')
    else (Except.ok r.bodyJson, st')

/-! Concrete transport stubs and prediction objects used by the
witnesses and counterexamples. -/

/-- A 200 response with an opaque body. -/
def respOk : Response := ⟨true, 200, "OK", "", JsVal.undef⟩

/-- A transport whose every call resolves with `respOk`. -/
def okTransport : Transport := fun _ => FetchResult.resp respOk

/-- A 500 response with body text `"oops"`. -/
def respFail : Response := ⟨false, 500, "Internal Server Error", "oops", JsVal.undef⟩

/-- A transport whose every call resolves with the 500 response. -/
def failTransport : Transport := fun _ => FetchResult.resp respFail

/-- A 200 response whose `json()` is `j`. -/
def okJson (j : JsVal) : Response := ⟨true, 200, "OK", "", j⟩

/-- A prediction object with the given status, the identifying fields
`get` reads to rebuild its URL, and extra fields. -/
def predFields (status : String) (extra : List (String × JsVal)) : JsVal :=
  JsVal.obj
    ([("status", JsVal.str status),
      ("uuid", JsVal.str "u1"),
      ("version_id", JsVal.str "v1"),
      ("version", JsVal.obj [("model", JsVal.obj [("absolute_url", JsVal.str "/m")])])]
      ++ extra)

def predProcessing : JsVal := predFields "processing" []

def predSucceeded : JsVal :=
  predFields "succeeded" [("output", JsVal.obj [("value", JsVal.num 42)])]

def predCanceled : JsVal := predFields "canceled" []

def predFailedBoom : JsVal :=
  JsVal.obj [("status", JsVal.str "failed"), ("error", JsVal.str "boom")]

/-- The stub of claim C4: the `create` call returns a processing
prediction, the next two `get` calls return processing, and every later
`get` returns succeeded with output `{"value": 42}`. -/
def pollTransport : Transport := fun n =>
  if n = 0 then FetchResult.resp (okJson predProcessing)
  else if n ≤ 2 then FetchResult.resp (okJson (JsVal.obj [("prediction", predProcessing)]))
  else FetchResult.resp (okJson (JsVal.obj [("prediction", predSucceeded)]))

/-- The run of claim C4. -/
def runPoll : Option (Except String JsVal) × St :=
  run cfgDefault pollTransport "owner/model:ver" JsVal.undef 5 St.empty

/-- The stub of claim C5: `create` already answers with a failed
prediction carrying error `"boom"`. -/
def failBoomTransport : Transport := fun _ => FetchResult.resp (okJson predFailedBoom)

/-- A stub that fails its first call and succeeds from the second on. -/
def failThenOkTransport : Transport := fun n =>
  if n = 0 then FetchResult.resp respFail else FetchResult.resp respOk

/-! General lemmas about the retry loop. -/

/-- The error raised by one failing transport call: the thrown error
itself, or the final-attempt wrapper around a non-ok response. -/
def failResultText : FetchResult → String
  | FetchResult.resp r => failText r
  | FetchResult.err e => e

/-- The error `fetchWithRetry` ends with when every one of `fuel`
attempts starting at overall call index `base` fails. -/
def exhaustedText (tr : Transport) (base fuel : Nat) : String :=
  if fuel = 0 then "Max retries reached for API request."
  else failResultText (tr (base + (fuel - 1)))

theorem fetchLoop_ok (cfg : ClientConfig) (tr : Transport) (req : Request) :
    ∀ fuel i st r st', fetchLoop cfg tr req i fuel st = (Except.ok r, st') →
      r.ok = true := by
  intro fuel
  induction fuel with
  | zero => intro i st r st' h; simp [fetchLoop] at h
  | succ f ih =>
    intro i st r st' h
    unfold fetchLoop at h
    cases htr : tr st.callLog.length with
    | resp r' =>
      rw [htr] at h
      by_cases hok : r'.ok
      · simp only [hok, if_true] at h
        obtain ⟨h1, h2⟩ := Prod.mk.injEq .. ▸ h
        cases h1
        exact hok
      · by_cases hi : (i : Int) = cfg.maxRetries - 1
        · simp [hok, hi] at h
        · simp only [hok, hi, if_false, Bool.false_eq_true] at h
          exact ih _ _ _ _ h
    | err e =>
      rw [htr] at h
      by_cases hi : (i : Int) = cfg.maxRetries - 1
      · simp [hi] at h
      · simp only [hi, if_false] at h
        exact ih _ _ _ _ h

theorem fetchLoop_log (cfg : ClientConfig) (tr : Transport) (req : Request) :
    ∀ fuel i st, ∃ k,
      (fetchLoop cfg tr req i fuel st).2.callLog = st.callLog ++ List.replicate k req ∧
      k ≤ fuel ∧ (1 ≤ fuel → 1 ≤ k) := by
  intro fuel
  induction fuel with
  | zero => intro i st; exact ⟨0, by simp [fetchLoop], by omega, by omega⟩
  | succ f ih =>
    intro i st
    unfold fetchLoop
    cases htr : tr st.callLog.length with
    | resp r =>
      by_cases hok : r.ok
      · exact ⟨1, by simp [hok], by omega, by omega⟩
      · by_cases hi : (i : Int) = cfg.maxRetries - 1
        · exact ⟨1, by simp [hok, hi], by omega, by omega⟩
        · obtain ⟨k, hk, hk2, _⟩ :=
            ih (i + 1) (delay cfg.timeout { st with callLog := st.callLog ++ [req] })
          refine ⟨k + 1, ?_, by omega, by omega⟩
          simp only [hok, hi, if_false, Bool.false_eq_true]
          simpa [delay, List.replicate_succ, List.append_assoc] using hk
    | err e =>
      by_cases hi : (i : Int) = cfg.maxRetries - 1
      · exact ⟨1, by simp [hi], by omega, by omega⟩
      · obtain ⟨k, hk, hk2, _⟩ :=
          ih (i + 1) (delay cfg.timeout { st with callLog := st.callLog ++ [req] })
        refine ⟨k + 1, ?_, by omega, by omega⟩
        simp only [hi, if_false]
        simpa [delay, List.replicate_succ, List.append_assoc] using hk

theorem fetchLoop_allFail (cfg : ClientConfig) (tr : Transport) (req : Request)
    (hfail : ∀ n, FetchResult.isFailure (tr n) = true) :
    ∀ (fuel i : Nat) (st : St), (i : Int) + (fuel : Int) = cfg.maxRetries →
      fetchLoop cfg tr req i fuel st =
        (Except.error (exhaustedText tr st.callLog.length fuel),
         ⟨st.callLog ++ List.replicate fuel req,
          st.delays ++ List.replicate (fuel - 1) cfg.timeout⟩) := by
  intro fuel
  induction fuel with
  | zero => intro i st _; simp [fetchLoop, exhaustedText]
  | succ f ih =>
    intro i st hinv
    have hf := hfail st.callLog.length
    unfold fetchLoop
    cases htr : tr st.callLog.length with
    | resp r =>
      rw [htr] at hf
      have hok : r.ok = false := by
        simpa [FetchResult.isFailure] using hf
      by_cases hfz : f = 0
      · subst hfz
        have hi : (i : Int) = cfg.maxRetries - 1 := by push_cast at hinv; omega
        simp [hok, hi, exhaustedText, failResultText, htr]
      · have hi : ¬((i : Int) = cfg.maxRetries - 1) := by push_cast at hinv; omega
        simp only [hok, hi, if_false, Bool.false_eq_true]
        rw [ih (i + 1) (delay cfg.timeout { st with callLog := st.callLog ++ [req] })
          (by push_cast at hinv ⊢; omega)]
        have hlen : st.callLog.length + 1 + (f - 1) = st.callLog.length + f := by omega
        have hrep : ∀ (α : Type) (x : α), List.replicate f x = x :: List.replicate (f - 1) x := by
          intro α x
          have : f = (f - 1) + 1 := by omega
          rw [this, List.replicate_succ]
          simp
        simp [delay, exhaustedText, hfz, hlen, List.replicate_succ, hrep Request req,
          hrep Int cfg.timeout, List.append_assoc]
    | err e =>
      rw [htr] at hf
      by_cases hfz : f = 0
      · subst hfz
        have hi : (i : Int) = cfg.maxRetries - 1 := by push_cast at hinv; omega
        simp [hi, exhaustedText, failResultText, htr]
      · have hi : ¬((i : Int) = cfg.maxRetries - 1) := by push_cast at hinv; omega
        simp only [hi, if_false]
        rw [ih (i + 1) (delay cfg.timeout { st with callLog := st.callLog ++ [req] })
          (by push_cast at hinv ⊢; omega)]
        have hlen : st.callLog.length + 1 + (f - 1) = st.callLog.length + f := by omega
        have hrep : ∀ (α : Type) (x : α), List.replicate f x = x :: List.replicate (f - 1) x := by
          intro α x
          have : f = (f - 1) + 1 := by omega
          rw [this, List.replicate_succ]
          simp
        simp [delay, exhaustedText, hfz, hlen, List.replicate_succ, hrep Request req,
          hrep Int cfg.timeout, List.append_assoc]

theorem fetchLoop_firstOk (cfg : ClientConfig) (tr : Transport) (req : Request) :
    ∀ (k fuel i : Nat) (st : St) (r : Response),
      (∀ j, j < k → FetchResult.isFailure (tr (st.callLog.length + j)) = true) →
      tr (st.callLog.length + k) = FetchResult.resp r →
      r.ok = true →
      k < fuel →
      (i : Int) + (fuel : Int) = cfg.maxRetries →
      fetchLoop cfg tr req i fuel st =
        (Except.ok r,
         ⟨st.callLog ++ List.replicate (k + 1) req,
          st.delays ++ List.replicate k cfg.timeout⟩) := by
  intro k
  induction k with
  | zero =>
    intro fuel i st r _ hk hok hlt _
    cases fuel with
    | zero => omega
    | succ f =>
      unfold fetchLoop
      rw [Nat.add_zero] at hk
      rw [hk]
      simp [hok]
  | succ kk ih =>
    intro fuel i st r hfails hk hok hlt hinv
    cases fuel with
    | zero => omega
    | succ f =>
      have hf0 := hfails 0 (by omega)
      unfold fetchLoop
      have hi : ¬((i : Int) = cfg.maxRetries - 1) := by push_cast at hinv; omega
      have hrec := ih f (i + 1) (delay cfg.timeout { st with callLog := st.callLog ++ [req] }) r
        (by
          intro j hj
          have := hfails (j + 1) (by omega)
          simpa [delay, Nat.add_assoc, Nat.add_comm 1 j] using this)
        (by simpa [delay, Nat.add_assoc, Nat.add_comm 1 kk] using hk)
        hok (by omega) (by push_cast at hinv ⊢; omega)
      cases htr : tr st.callLog.length with
      | resp r' =>
        rw [Nat.add_zero, htr] at hf0
        have hok' : r'.ok = false := by simpa [FetchResult.isFailure] using hf0
        simp only [hok', hi, if_false, Bool.false_eq_true]
        rw [hrec]
        simp [delay, List.replicate_succ, List.append_assoc]
      | err e =>
        simp only [hi, if_false]
        rw [hrec]
        simp [delay, List.replicate_succ, List.append_assoc]

/-- The effect trace of `create` is exactly that of its `fetchWithRetry`
call: both result branches of `create` pass the state through unchanged. -/
theorem create_state (cfg : ClientConfig) (tr : Transport) (model : String)
    (inputs : JsVal) (st : St) :
    (create cfg tr model inputs st).2 =
      (fetchWithRetry cfg tr
        (createRequest cfg (destructured (splitModel model) 0)
          (destructured (splitModel model) 1) inputs) st).2 := by
  simp only [create]
  split
  next e st' heq => rw [heq]
  next r st' heq =>
    rw [heq]
    by_cases hok : r.ok <;> simp [hok]

/-- A successful `fetchWithRetry` result is an `ok` response. -/
theorem fetchWithRetry_ok (cfg : ClientConfig) (tr : Transport) (req : Request)
    (st : St) (r : Response) (st' : St)
    (h : fetchWithRetry cfg tr req st = (Except.ok r, st')) : r.ok = true := by
  unfold fetchWithRetry at h
  exact fetchLoop_ok cfg tr req cfg.maxRetries.toNat 0 st r st' h

/-- Claim C1, counterexample: for the model identifier `"foo"`, which
contains no `':'`, `create` does not fail at all, let alone with a
malformed-identifier error before reaching the transport: it hands one
request to the transport and resolves with the parsed response body. -/
theorem create_missing_colon_counterexample :
    (create cfgDefault okTransport "foo" JsVal.undef St.empty).2.callLog.length = 1 ∧
    (create cfgDefault okTransport "foo" JsVal.undef St.empty).1 = Except.ok JsVal.undef :=
  ⟨rfl, rfl⟩

/-- Claim C1 (amended): for a model identifier without `':'`, `create` does
not fail with a malformed-identifier error; it builds the request whose URL
has the literal string `"undefined"` as its version segment, and every
request it hands to the transport is that request — at least one of them
whenever `maxRetries` is positive. -/
theorem create_missing_colon_amended (cfg : ClientConfig) (tr : Transport)
    (inputs : JsVal) (st : St) (model : String)
    (hm : splitModel model = [model]) :
    (createRequest cfg model "undefined" inputs).url
        = cfg.baseUrl ++ "/" ++ model ++ "/versions/" ++ "undefined" ++ "/predictions" ∧
    ∃ k, (create cfg tr model inputs st).2.callLog
          = st.callLog ++ List.replicate k (createRequest cfg model "undefined" inputs) ∧
        (1 ≤ cfg.maxRetries → 1 ≤ k) := by
  refine ⟨rfl, ?_⟩
  have h2 := create_state cfg tr model inputs st
  rw [hm] at h2
  have hd0 : destructured [model] 0 = model := rfl
  have hd1 : destructured [model] 1 = "undefined" := rfl
  rw [hd0, hd1] at h2
  obtain ⟨k, hk, _, hk1⟩ := fetchLoop_log cfg tr
    (createRequest cfg model "undefined" inputs) cfg.maxRetries.toNat 0 st
  refine ⟨k, ?_, fun hmr => hk1 (by omega)⟩
  rw [h2]
  unfold fetchWithRetry
  exact hk

/-- Claim C1 witness: the amended statement at identifier `"foo"`. -/
theorem create_missing_colon_witness :
    (createRequest cfgDefault "foo" "undefined" JsVal.undef).url
        = cfgDefault.baseUrl ++ "/" ++ "foo" ++ "/versions/" ++ "undefined" ++ "/predictions" ∧
    ∃ k, (create cfgDefault okTransport "foo" JsVal.undef St.empty).2.callLog
          = St.empty.callLog
              ++ List.replicate k (createRequest cfgDefault "foo" "undefined" JsVal.undef) ∧
        (1 ≤ cfgDefault.maxRetries → 1 ≤ k) :=
  create_missing_colon_amended cfgDefault okTransport JsVal.undef St.empty "foo" rfl

/-- Claim C2: with a transport whose calls all fail, `fetchWithRetry`
invokes the transport exactly `maxRetries` times — never more — and then
fails, with the error of the final attempt (the thrown error or the
wrapper carrying the final response status and body) or the generic
max-retries error. -/
theorem fetchWithRetry_exhausts_retries (cfg : ClientConfig) (tr : Transport)
    (req : Request) (st : St)
    (hfail : ∀ n, FetchResult.isFailure (tr n) = true)
    (hmr : 0 ≤ cfg.maxRetries) :
    (fetchWithRetry cfg tr req st).2.callLog.length
        = st.callLog.length + cfg.maxRetries.toNat ∧
    (fetchWithRetry cfg tr req st).1
        = Except.error (exhaustedText tr st.callLog.length cfg.maxRetries.toNat) := by
  have h := fetchLoop_allFail cfg tr req hfail cfg.maxRetries.toNat 0 st
    (by push_cast; omega)
  unfold fetchWithRetry
  rw [h]
  exact ⟨by simp, rfl⟩

/-- Claim C2 witness: the default client against an always-500 transport
makes exactly three calls and fails with the wrapped final 500. -/
theorem fetchWithRetry_exhausts_retries_witness :
    (fetchWithRetry cfgDefault failTransport (emptyRequest "u") St.empty).2.callLog.length
        = St.empty.callLog.length + cfgDefault.maxRetries.toNat ∧
    (fetchWithRetry cfgDefault failTransport (emptyRequest "u") St.empty).1
        = Except.error
            (exhaustedText failTransport St.empty.callLog.length cfgDefault.maxRetries.toNat) :=
  fetchWithRetry_exhausts_retries cfgDefault failTransport (emptyRequest "u") St.empty
    (fun _ => rfl) (by decide)

/-- Claim C3: if the transport fails the first N−1 calls and returns an ok
response on the Nth, with 1 ≤ N ≤ maxRetries, then `fetchWithRetry`
returns that response, having invoked the transport exactly N times with
exactly one fixed `timeout`-long delay between consecutive attempts
(N−1 delays, all equal). -/
theorem fetchWithRetry_first_success (cfg : ClientConfig) (tr : Transport)
    (req : Request) (st : St) (N : Nat) (r : Response)
    (h1 : 1 ≤ N) (h2 : (N : Int) ≤ cfg.maxRetries)
    (hfails : ∀ j, j < N - 1 → FetchResult.isFailure (tr (st.callLog.length + j)) = true)
    (hok : tr (st.callLog.length + (N - 1)) = FetchResult.resp r)
    (hr : r.ok = true) :
    fetchWithRetry cfg tr req st =
      (Except.ok r,
       ⟨st.callLog ++ List.replicate N req,
        st.delays ++ List.replicate (N - 1) cfg.timeout⟩) := by
  have h := fetchLoop_firstOk cfg tr req (N - 1) cfg.maxRetries.toNat 0 st r hfails hok hr
    (by omega) (by push_cast; omega)
  unfold fetchWithRetry
  rw [h]
  have hN : N - 1 + 1 = N := by omega
  rw [hN]

/-- Claim C3 witness: N = 2 against the default client (maxRetries 3):
two calls, one 250 ms delay, and the successful response is returned. -/
theorem fetchWithRetry_first_success_witness :
    fetchWithRetry cfgDefault failThenOkTransport (emptyRequest "u") St.empty =
      (Except.ok respOk,
       ⟨St.empty.callLog ++ List.replicate 2 (emptyRequest "u"),
        St.empty.delays ++ List.replicate (2 - 1) cfgDefault.timeout⟩) :=
  fetchWithRetry_first_success cfgDefault failThenOkTransport (emptyRequest "u") St.empty 2
    respOk (by omega) (by decide)
    (by intro j hj; have hj0 : j = 0 := by omega
        subst hj0; rfl)
    rfl rfl

/-- Claim C4, counterexample: in the claim's exact scenario (create
answers processing; the three successive gets answer processing,
processing, succeeded with output `{"value": 42}`) the run returns
`{"value": 42}` but performs three poll delays, not two: the loop delays
once before every `get`, including the final one. -/
theorem run_poll_delays_counterexample :
    runPoll.1 = some (Except.ok (JsVal.obj [("value", JsVal.num 42)])) ∧
    runPoll.2.delays.length = 3 ∧ runPoll.2.delays.length ≠ 2 :=
  ⟨rfl, rfl, by decide⟩

/-- Claim C4 (amended): in that scenario `run` performs exactly three poll
delays — one before each of the three `get` calls, each of the configured
250 ms — makes four transport calls (one create, three gets), and returns
`{"value": 42}`. -/
theorem run_poll_three_delays :
    runPoll.1 = some (Except.ok (JsVal.obj [("value", JsVal.num 42)])) ∧
    runPoll.2.delays = [250, 250, 250] ∧
    runPoll.2.callLog.length = 4 :=
  ⟨rfl, rfl, rfl⟩

/-- Claim C5: when the prediction observed has status `failed`, the poll
loop raises the prediction-failed error carrying the remote error message
and performs no further delay or transport call; in particular, when
`create` already answers `failed` with error `"boom"`, `run` fails with
`"Prediction failed: boom"` after the single create request, with no delay
and no `get`. -/
theorem run_prediction_failed (cfg : ClientConfig) (tr : Transport) (fuel : Nat)
    (p : JsVal) (st : St) (hf : statusIs p "failed" = true) :
    runLoop cfg tr fuel p st =
      (some (Except.error ("Prediction failed: " ++ toDisplay (jget p "error"))), st) ∧
    run cfgDefault failBoomTransport "m:v" JsVal.undef 5 St.empty =
      (some (Except.error "Prediction failed: boom"),
       ⟨[createRequest cfgDefault "m" "v" JsVal.undef], []⟩) := by
  constructor
  · have ht : isTerminal p = true := by simp [isTerminal, hf]
    unfold runLoop
    simp [ht, hf]
  · rfl

/-- Claim C5 witness: the failed-status statement at the `"boom"`
prediction object. -/
theorem run_prediction_failed_witness :
    runLoop cfgDefault failBoomTransport 5 predFailedBoom St.empty =
      (some (Except.error ("Prediction failed: " ++ toDisplay (jget predFailedBoom "error"))),
       St.empty) ∧
    run cfgDefault failBoomTransport "m:v" JsVal.undef 5 St.empty =
      (some (Except.error "Prediction failed: boom"),
       ⟨[createRequest cfgDefault "m" "v" JsVal.undef], []⟩) :=
  run_prediction_failed cfgDefault failBoomTransport 5 predFailedBoom St.empty rfl

/-- Claim C6: when the prediction observed has terminal status `canceled`,
the poll loop stops and returns the prediction's `output` field — possibly
missing — without raising an error and without any further delay or
transport call. -/
theorem run_canceled_returns_output (cfg : ClientConfig) (tr : Transport)
    (fuel : Nat) (p : JsVal) (st : St) (hc : statusIs p "canceled" = true) :
    runLoop cfg tr fuel p st = (some (Except.ok (jget p "output")), st) := by
  have ht : isTerminal p = true := by simp [isTerminal, hc]
  have hf : statusIs p "failed" = false := by
    unfold statusIs at hc ⊢
    cases h : jget p "status" <;> simp_all
  unfold runLoop
  simp [ht, hf]

/-- Claim C6 witness: a canceled prediction with no output field makes the
loop return the (missing) output at once. -/
theorem run_canceled_witness :
    runLoop cfgDefault okTransport 5 predCanceled St.empty =
      (some (Except.ok (jget predCanceled "output")), St.empty) :=
  run_canceled_returns_output cfgDefault okTransport 5 predCanceled St.empty rfl

/-- Claim C7, counterexample: for the identifier `"a:b:c"`, which has two
`':'`, the URL `create` sends its POST to carries version segment `"b"` —
the piece between the first and second `':'` — not `"b:c"`, everything
after the first `':'` as the claim states. -/
theorem create_url_counterexample :
    ((create cfgDefault okTransport "a:b:c" JsVal.undef St.empty).2.callLog.map Request.url)
        = [cfgDefault.baseUrl ++ "/a/versions/b/predictions"] ∧
    (cfgDefault.baseUrl ++ "/a/versions/b/predictions"
        ≠ cfgDefault.baseUrl ++ "/a/versions/b:c/predictions") :=
  ⟨rfl, by decide⟩

/-- Claim C7 (amended): splitting the identifier on `':'` yields the path
as first segment and the version as second segment — for a well-formed
`"path:version"` identifier exactly its path and version; when the
identifier has more than one `':'` the version is the segment between the
first and second `':'`, not everything after the first — and every request
`create` hands to the transport is the POST whose URL is exactly
`baseUrl + "/" + path + "/versions/" + version + "/predictions"`. -/
theorem create_url_amended (cfg : ClientConfig) (tr : Transport) (inputs : JsVal)
    (st : St) (model path version : String) (rest : List String)
    (hm : splitModel model = path :: version :: rest) :
    (createRequest cfg path version inputs).url
        = cfg.baseUrl ++ "/" ++ path ++ "/versions/" ++ version ++ "/predictions" ∧
    (createRequest cfg path version inputs).method = some "POST" ∧
    ∃ k, (create cfg tr model inputs st).2.callLog
          = st.callLog ++ List.replicate k (createRequest cfg path version inputs) ∧
        (1 ≤ cfg.maxRetries → 1 ≤ k) := by
  refine ⟨rfl, rfl, ?_⟩
  have h2 := create_state cfg tr model inputs st
  rw [hm] at h2
  have hd0 : destructured (path :: version :: rest) 0 = path := rfl
  have hd1 : destructured (path :: version :: rest) 1 = version := rfl
  rw [hd0, hd1] at h2
  obtain ⟨k, hk, _, hk1⟩ := fetchLoop_log cfg tr
    (createRequest cfg path version inputs) cfg.maxRetries.toNat 0 st
  refine ⟨k, ?_, fun hmr => hk1 (by omega)⟩
  rw [h2]
  unfold fetchWithRetry
  exact hk

/-- Claim C7 witness: the amended statement at `"a:b:c"`, whose split is
`["a", "b", "c"]`. -/
theorem create_url_witness :
    (createRequest cfgDefault "a" "b" JsVal.undef).url
        = cfgDefault.baseUrl ++ "/" ++ "a" ++ "/versions/" ++ "b" ++ "/predictions" ∧
    (createRequest cfgDefault "a" "b" JsVal.undef).method = some "POST" ∧
    ∃ k, (create cfgDefault okTransport "a:b:c" JsVal.undef St.empty).2.callLog
          = St.empty.callLog ++ List.replicate k (createRequest cfgDefault "a" "b" JsVal.undef) ∧
        (1 ≤ cfgDefault.maxRetries → 1 ≤ k) :=
  create_url_amended cfgDefault okTransport JsVal.undef St.empty "a:b:c" "a" "b" ["c"] rfl

/-- Claim C8: for the same prediction and the same deterministic transport,
`checkStatus` returns exactly the `status` field of the object `get`
returns, leaves the same effect trace, and propagates `get`'s errors
unchanged. -/
theorem checkStatus_refines_get (cfg : ClientConfig) (tr : Transport)
    (p : JsVal) (st : St) :
    (checkStatus cfg tr p st).2 = (get cfg tr p st).2 ∧
    (checkStatus cfg tr p st).1
        = Except.map (fun d => jget d "status") (get cfg tr p st).1 := by
  unfold checkStatus
  rcases h : get cfg tr p st with ⟨res, st'⟩
  cases res <;> simp [Except.map]

/-- Claim C9: every response `fetchWithRetry` returns satisfies
`response.ok`, so the non-ok error branches of `get`, `create`,
`listModels`, `getModelMetadata` and `cancelPrediction` are unreachable:
each operation is exactly error propagation from `fetchWithRetry` followed
by JSON decoding of the successful response. -/
theorem fetchWithRetry_ok_responses :
    (∀ (cfg : ClientConfig) (tr : Transport) (req : Request) (st : St) r st',
        fetchWithRetry cfg tr req st = (Except.ok r, st') → r.ok = true) ∧
    (∀ (cfg : ClientConfig) (tr : Transport) (p : JsVal) (st : St),
        get cfg tr p st =
          match fetchWithRetry cfg tr (emptyRequest (getUrl cfg p)) st with
          | (Except.error e, st') => (Except.error e, st')
          | (Except.ok r, st') => (Except.ok (jget r.bodyJson "prediction"), st')) ∧
    (∀ (cfg : ClientConfig) (tr : Transport) (model : String) (inputs : JsVal) (st : St),
        create cfg tr model inputs st =
          match fetchWithRetry cfg tr
              (createRequest cfg (destructured (splitModel model) 0)
                (destructured (splitModel model) 1) inputs) st with
          | (Except.error e, st') => (Except.error e, st')
          | (Except.ok r, st') => (Except.ok r.bodyJson, st')) ∧
    (∀ (cfg : ClientConfig) (tr : Transport) (st : St),
        listModels cfg tr st =
          match fetchWithRetry cfg tr (emptyRequest cfg.baseUrl) st with
          | (Except.error e, st') => (Except.error e, st')
          | (Except.ok r, st') => (Except.ok r.bodyJson, st')) ∧
    (∀ (cfg : ClientConfig) (tr : Transport) (modelPath : String) (st : St),
        getModelMetadata cfg tr modelPath st =
          match fetchWithRetry cfg tr (emptyRequest (cfg.baseUrl ++ "/" ++ modelPath)) st with
          | (Except.error e, st') => (Except.error e, st')
          | (Except.ok r, st') => (Except.ok r.bodyJson, st')) ∧
    (∀ (cfg : ClientConfig) (tr : Transport) (p : JsVal) (st : St),
        cancelPrediction cfg tr p st =
          match fetchWithRetry cfg tr (cancelRequest cfg p) st with
          | (Except.error e, st') => (Except.error e, st')
          | (Except.ok r, st') => (Except.ok r.bodyJson, st')) := by
  refine ⟨fetchWithRetry_ok, ?_, ?_, ?_, ?_, ?_⟩
  · intro cfg tr p st
    unfold get
    rcases h : fetchWithRetry cfg tr (emptyRequest (getUrl cfg p)) st with ⟨res, st'⟩
    cases res with
    | error e => rfl
    | ok r => simp [fetchWithRetry_ok cfg tr _ st r st' h]
  · intro cfg tr model inputs st
    simp only [create]
    rcases h : fetchWithRetry cfg tr
        (createRequest cfg (destructured (splitModel model) 0)
          (destructured (splitModel model) 1) inputs) st with ⟨res, st'⟩
    cases res with
    | error e => rfl
    | ok r => simp [fetchWithRetry_ok cfg tr _ st r st' h]
  · intro cfg tr st
    unfold listModels
    rcases h : fetchWithRetry cfg tr (emptyRequest cfg.baseUrl) st with ⟨res, st'⟩
    cases res with
    | error e => rfl
    | ok r => simp [fetchWithRetry_ok cfg tr _ st r st' h]
  · intro cfg tr modelPath st
    unfold getModelMetadata
    rcases h : fetchWithRetry cfg tr (emptyRequest (cfg.baseUrl ++ "/" ++ modelPath)) st
      with ⟨res, st'⟩
    cases res with
    | error e => rfl
    | ok r => simp [fetchWithRetry_ok cfg tr _ st r st' h]
  · intro cfg tr p st
    unfold cancelPrediction
    rcases h : fetchWithRetry cfg tr (cancelRequest cfg p) st with ⟨res, st'⟩
    cases res with
    | error e => rfl
    | ok r => simp [fetchWithRetry_ok cfg tr _ st r st' h]

/-- Claim C9 witness: the ok-ness guarantee applied at a concrete
successful `fetchWithRetry` run. -/
theorem fetchWithRetry_ok_responses_witness :
    fetchWithRetry cfgDefault okTransport (emptyRequest "u") St.empty
        = (Except.ok respOk, ⟨[emptyRequest "u"], []⟩) ∧
    respOk.ok = true :=
  ⟨rfl, fetchWithRetry_ok_responses.1 cfgDefault okTransport (emptyRequest "u") St.empty
    respOk ⟨[emptyRequest "u"], []⟩ rfl⟩

/-- Claim C10, counterexample: `maxRetries: -1` is truthy in JavaScript,
survives the `||` coalescing unchanged, and yields a client whose
`fetchWithRetry` performs zero transport attempts before failing — so it
is not the case that every options object gives a client making at least
one transport attempt per HTTP call. -/
theorem negative_retries_counterexample :
    (mkClient ⟨none, none, some (-1), none⟩).maxRetries = -1 ∧
    (fetchWithRetry (mkClient ⟨none, none, some (-1), none⟩) okTransport
        (emptyRequest "u") St.empty).2.callLog.length = 0 ∧
    (fetchWithRetry (mkClient ⟨none, none, some (-1), none⟩) okTransport
        (emptyRequest "u") St.empty).1
      = Except.error "Max retries reached for API request." :=
  ⟨rfl, rfl, rfl⟩

/-- Claim C10 (amended): falsy option values are replaced by the defaults —
`maxRetries: 0` yields an effective 3 and `timeout: 0` an effective 250 ms —
and every client whose `maxRetries` option is absent or nonnegative
performs at least one transport attempt per HTTP call (a negative
`maxRetries` is kept and gives zero attempts). -/
theorem falsy_options_defaulted :
    (mkClient ⟨none, none, some 0, none⟩).maxRetries = 3 ∧
    (mkClient ⟨none, some 0, none, none⟩).timeout = 250 ∧
    (∀ (options : Options) (tr : Transport) (req : Request) (st : St),
        (∀ v, options.maxRetries = some v → 0 ≤ v) →
        st.callLog.length
          < (fetchWithRetry (mkClient options) tr req st).2.callLog.length) := by
  refine ⟨rfl, rfl, ?_⟩
  intro options tr req st hv
  have hmr : 1 ≤ (mkClient options).maxRetries := by
    show 1 ≤ orDefaultInt options.maxRetries 3
    cases ho : options.maxRetries with
    | none => simp [orDefaultInt]
    | some v =>
      have hnn := hv v ho
      unfold orDefaultInt
      by_cases hz : v = 0
      · simp [hz]
      · simp only [hz, if_false]
        omega
  obtain ⟨k, hk, _, hk1⟩ := fetchLoop_log (mkClient options) tr req
    (mkClient options).maxRetries.toNat 0 st
  unfold fetchWithRetry
  rw [hk]
  have hk2 : 1 ≤ k := hk1 (by omega)
  simp only [List.length_append, List.length_replicate]
  omega

/-- Claim C10 witness: the amended statement's attempt guarantee at an
options object with no `maxRetries` property. -/
theorem falsy_options_defaulted_witness :
    St.empty.callLog.length
      < (fetchWithRetry (mkClient noOptions) okTransport (emptyRequest "u")
          St.empty).2.callLog.length :=
  falsy_options_defaulted.2.2 noOptions okTransport (emptyRequest "u") St.empty
    (fun _ h => nomatch h)

end NodeReplicate
